import Mathlib

/-!
Verification development for a slice of the sg3_utils repository:
the utilities sg_readcap, sg_simple1, sg_requests and sg_decode_sense.

Each C source file is shallowly embedded: the response-buffer decoders
become pure Lean functions on byte vectors, and each utility's `main`
becomes a function from the outcomes of its external calls (option
values, open/ioctl results, per-command SCSI outcomes) to the sequence
of file-descriptor / command-submission events it performs together
with its process exit status.
-/

namespace SgUtils

/-- Modelled from the spec: `sg_get_unaligned_beN` (sg_unaligned.h, which is
not part of the sources here) reads `n` consecutive bytes starting at `off`
as one big-endian integer: the byte at `off` is the most significant. -/
def sg_get_unaligned_beN (b : Nat → Nat) (off : Nat) : Nat → Nat
  | 0 => 0
  | m + 1 => sg_get_unaligned_beN b off m * 256 + b (off + m)

/-- Modelled from the spec: `sg_get_unaligned_be32` reads four consecutive
bytes as a big-endian 32-bit integer. -/
def sg_get_unaligned_be32 (b : Nat → Nat) (off : Nat) : Nat :=
  sg_get_unaligned_beN b off 4

/-- Modelled from the spec: `sg_get_unaligned_be64` reads eight consecutive
bytes as a big-endian 64-bit integer. -/
def sg_get_unaligned_be64 (b : Nat → Nat) (off : Nat) : Nat :=
  sg_get_unaligned_beN b off 8

/-- sg_readcap.c lines 701-706: the READ CAPACITY (10) decoder.
`last_blk_addr = sg_get_unaligned_be32(resp_buff + 0)` and
`block_size = sg_get_unaligned_be32(resp_buff + 4)`. -/
def rcap10_decode (b : Nat → Nat) : Nat × Nat :=
  (sg_get_unaligned_be32 b 0, sg_get_unaligned_be32 b 4)

/-- The named fields extracted from a READ CAPACITY (16) response. -/
structure Rcap16Fields where
  llast_blk_addr : Nat
  block_size : Nat
  rc_basis : Nat
  prot_en : Nat
  p_type : Nat
  p_i_exponent : Nat
  lbppbe : Nat
  lbpme : Bool
  lbprz : Bool
  lalba : Nat
  deriving DecidableEq

/-- sg_readcap.c lines 797-846: the READ CAPACITY (16) decoder, field by
field exactly as `main` computes them from `resp_buff`. -/
def rcap16_decode (b : Nat → Nat) : Rcap16Fields :=
  { llast_blk_addr := sg_get_unaligned_be64 b 0
  , block_size := sg_get_unaligned_be32 b 8
  , rc_basis := (b 12 >>> 4) &&& 0x3
  , prot_en := if b 12 &&& 0x1 != 0 then 1 else 0
  , p_type := (b 12 >>> 1) &&& 0x7
  , p_i_exponent := (b 13 >>> 4) &&& 0xf
  , lbppbe := b 13 &&& 0xf
  , lbpme := b 14 &&& 0x80 != 0
  , lbprz := b 14 &&& 0x40 != 0
  , lalba := ((b 14 &&& 0x3f) <<< 8) + b 15 }

set_option maxRecDepth 4096 in
/-- Shift/mask combinations on a single byte value, phrased as the
corresponding division/remainder arithmetic. -/
lemma byte_bit_facts : ∀ x : Fin 256,
    (x.val >>> 4) &&& 0x3 = x.val / 16 % 4
    ∧ (x.val >>> 1) &&& 0x7 = x.val / 2 % 8
    ∧ x.val &&& 0x1 = x.val % 2
    ∧ (x.val >>> 4) &&& 0xf = x.val / 16
    ∧ x.val &&& 0xf = x.val % 16
    ∧ (x.val &&& 0x80 != 0) = decide (x.val / 128 % 2 = 1)
    ∧ (x.val &&& 0x40 != 0) = decide (x.val / 64 % 2 = 1)
    ∧ (x.val &&& 0x3f) <<< 8 = x.val % 64 * 256 := by decide

/-- C1: For every 8-byte READ CAPACITY (10) response buffer, the decoder in
sg_readcap extracts the last logical block address as the big-endian 32-bit
integer held in bytes 0-3 and the logical block size as the big-endian
32-bit integer held in bytes 4-7; when the bytes are in range the two
values fit in 32 bits. -/
theorem rcap10_decode_fields (b : Nat → Nat) (hb : ∀ k, b k < 256) :
    (rcap10_decode b).1
      = b 0 * 2 ^ 24 + b 1 * 2 ^ 16 + b 2 * 2 ^ 8 + b 3
    ∧ (rcap10_decode b).2
      = b 4 * 2 ^ 24 + b 5 * 2 ^ 16 + b 6 * 2 ^ 8 + b 7
    ∧ (rcap10_decode b).1 < 2 ^ 32 ∧ (rcap10_decode b).2 < 2 ^ 32 := by
  have h1 : (rcap10_decode b).1
      = b 0 * 2 ^ 24 + b 1 * 2 ^ 16 + b 2 * 2 ^ 8 + b 3 := by
    simp only [rcap10_decode, sg_get_unaligned_be32, sg_get_unaligned_beN]
    ring
  have h2 : (rcap10_decode b).2
      = b 4 * 2 ^ 24 + b 5 * 2 ^ 16 + b 6 * 2 ^ 8 + b 7 := by
    simp only [rcap10_decode, sg_get_unaligned_be32, sg_get_unaligned_beN]
    ring
  refine ⟨h1, h2, ?_, ?_⟩
  · rw [h1]
    have h0 := hb 0; have h1b := hb 1; have h2b := hb 2; have h3b := hb 3
    omega
  · rw [h2]
    have h4 := hb 4; have h5 := hb 5; have h6 := hb 6; have h7 := hb 7
    omega

theorem rcap10_decode_fields_witness :
    ((fun k => if k = 0 then 0x12 else if k = 3 then 0xff else 1 : Nat → Nat)
        0 < 256)
    ∧ (rcap10_decode
        (fun k => if k = 0 then 0x12 else if k = 3 then 0xff else 1)).1
      = 0x120101ff := by
  refine ⟨by norm_num, ?_⟩
  have h := rcap10_decode_fields
    (fun k => if k = 0 then 0x12 else if k = 3 then 0xff else 1)
    (by intro k; dsimp only; split <;> [norm_num; skip]; split <;> norm_num)
  rw [h.1]; norm_num

/-- C6: for every 32-byte READ CAPACITY (16) response buffer of in-range
bytes, the decoder produces the documented field values: the 64-bit
big-endian last LBA from bytes 0-7, the 32-bit big-endian block length from
bytes 8-11, and the documented bit fields of bytes 12-15. -/
theorem rcap16_decode_fields (b : Nat → Nat) (hb : ∀ k, b k < 256) :
    (rcap16_decode b).llast_blk_addr
      = b 0 * 2 ^ 56 + b 1 * 2 ^ 48 + b 2 * 2 ^ 40 + b 3 * 2 ^ 32
        + b 4 * 2 ^ 24 + b 5 * 2 ^ 16 + b 6 * 2 ^ 8 + b 7
    ∧ (rcap16_decode b).block_size
      = b 8 * 2 ^ 24 + b 9 * 2 ^ 16 + b 10 * 2 ^ 8 + b 11
    ∧ (rcap16_decode b).rc_basis = b 12 / 16 % 4
    ∧ (rcap16_decode b).p_type = b 12 / 2 % 8
    ∧ (rcap16_decode b).prot_en = b 12 % 2
    ∧ (rcap16_decode b).p_i_exponent = b 13 / 16
    ∧ (rcap16_decode b).lbppbe = b 13 % 16
    ∧ ((rcap16_decode b).lbpme = true ↔ b 14 / 128 % 2 = 1)
    ∧ ((rcap16_decode b).lbprz = true ↔ b 14 / 64 % 2 = 1)
    ∧ (rcap16_decode b).lalba = b 14 % 64 * 256 + b 15 := by
  have f12 := byte_bit_facts ⟨b 12, hb 12⟩
  have f13 := byte_bit_facts ⟨b 13, hb 13⟩
  have f14 := byte_bit_facts ⟨b 14, hb 14⟩
  refine ⟨?_, ?_, ?_, ?_, ?_, ?_, ?_, ?_, ?_, ?_⟩
  · simp only [rcap16_decode, sg_get_unaligned_be64, sg_get_unaligned_beN]
    ring
  · simp only [rcap16_decode, sg_get_unaligned_be32, sg_get_unaligned_beN]
    ring
  · exact f12.1
  · exact f12.2.1
  · show (if b 12 &&& 0x1 != 0 then 1 else 0) = b 12 % 2
    rw [f12.2.2.1]
    rcases Nat.mod_two_eq_zero_or_one (b 12) with h | h <;> simp [h]
  · exact f13.2.2.2.1
  · exact f13.2.2.2.2.1
  · show (b 14 &&& 0x80 != 0) = true ↔ b 14 / 128 % 2 = 1
    rw [f14.2.2.2.2.2.1]
    simp
  · show (b 14 &&& 0x40 != 0) = true ↔ b 14 / 64 % 2 = 1
    rw [f14.2.2.2.2.2.2.1]
    simp
  · show (b 14 &&& 0x3f) <<< 8 + b 15 = b 14 % 64 * 256 + b 15
    rw [f14.2.2.2.2.2.2.2]

theorem rcap16_decode_fields_witness :
    ((fun k => 0xab : Nat → Nat) 0 < 256)
    ∧ (rcap16_decode (fun k => 0xab)).lbppbe = 0xb
    ∧ (rcap16_decode (fun k => 0xab)).lbpme = true := by
  have h := rcap16_decode_fields (fun k => 0xab) (by intro k; norm_num)
  refine ⟨by norm_num, ?_, ?_⟩
  · rw [h.2.2.2.2.2.2.1]; norm_num
  · exact h.2.2.2.2.2.2.2.1.mpr (by norm_num)

/-! ## Shared event-trace infrastructure

Each utility's `main` is embedded as a function from the outcomes of its
external calls to the list of file-descriptor and command-submission
events it performs, paired with its exit status. -/

/-- One observable event of a run: a device open attempt (successful or
failed), a close of the open descriptor, or the submission of one SCSI
command carrying a payload `α` (the command kind, and where the claims
need them, the CDB bytes and the timeout used). -/
inductive Ev (α : Type) where
  | openOk : Ev α
  | openFail : Ev α
  | close : Ev α
  | submit : α → Ev α
  deriving DecidableEq

/-- Number of successful device opens in a trace. -/
def countOpenOk {α : Type} (es : List (Ev α)) : Nat :=
  es.countP fun e => match e with | .openOk => true | _ => false

/-- Number of descriptor closes in a trace. -/
def countClose {α : Type} (es : List (Ev α)) : Nat :=
  es.countP fun e => match e with | .close => true | _ => false

/-- The submitted commands of a trace, in order. -/
def submitsOf {α : Type} (es : List (Ev α)) : List α :=
  es.filterMap fun e => match e with | .submit c => some c | _ => none

@[simp] lemma countOpenOk_append {α : Type} (es fs : List (Ev α)) :
    countOpenOk (es ++ fs) = countOpenOk es + countOpenOk fs :=
  List.countP_append ..

@[simp] lemma countClose_append {α : Type} (es fs : List (Ev α)) :
    countClose (es ++ fs) = countClose es + countClose fs :=
  List.countP_append ..

@[simp] lemma submitsOf_append {α : Type} (es fs : List (Ev α)) :
    submitsOf (es ++ fs) = submitsOf es ++ submitsOf fs :=
  List.filterMap_append ..

@[simp] lemma countOpenOk_nil {α : Type} : countOpenOk ([] : List (Ev α)) = 0 := rfl

@[simp] lemma countClose_nil {α : Type} : countClose ([] : List (Ev α)) = 0 := rfl

@[simp] lemma submitsOf_nil {α : Type} : submitsOf ([] : List (Ev α)) = [] := rfl

/-- Modelled from the spec: the sense-key-based error categories that
sg_lib.h / sg_err.h classify a completed command into ("clean success,
recovered error, not-ready, unit-attention, other"), extended with the
further categories these sources name (`SG_LIB_CAT_NO_SENSE`,
`SG_LIB_CAT_ILLEGAL_REQ`, `SG_LIB_CAT_INVALID_OP`). Clean success is kept
apart (absence of a category). -/
inductive SenseCat where
  | recovered : SenseCat
  | noSense : SenseCat
  | notReady : SenseCat
  | unitAttention : SenseCat
  | illegalReq : SenseCat
  | invalidOp : SenseCat
  | otherCat : SenseCat
  deriving DecidableEq

/-- Modelled from the spec: the symbolic process exit statuses the sources
use (`SG_LIB_OK` = 0, `SG_LIB_SYNTAX_ERROR`, `SG_LIB_CONTRADICT`,
`SG_LIB_FILE_ERROR`, `SG_LIB_TRANSPORT_ERROR`, `sg_convert_errno(..)` of a
nonzero OS error, a sense category `SG_LIB_CAT_*`, `SG_LIB_CAT_OTHER`).
Only `ok` corresponds to the numeric exit code 0. -/
inductive ExitStatus where
  | ok : ExitStatus
  | syntaxErr : ExitStatus
  | contradict : ExitStatus
  | fileErr : ExitStatus
  | transportErr : ExitStatus
  | errnoE : ExitStatus
  | cat : SenseCat → ExitStatus
  | otherErr : ExitStatus
  deriving DecidableEq

/-! ## sg_simple1.c

`main` issues an INQUIRY then a TEST UNIT READY through the sg driver's
`SG_IO` ioctl, classifying each completed command with
`sg_err_category3`. The embedding maps the outcomes of the external calls
to the event trace and the `int` the process returns. -/

/-- The two commands sg_simple1 issues; each submission records the
`io_hdr.timeout` in milliseconds it was issued with. -/
inductive S1Cmd where
  | inquiry : S1Cmd
  | testUnitReady : S1Cmd
  deriving DecidableEq

/-- Outcomes of the external calls sg_simple1 makes: whether a device
file name survived argument parsing, whether `open` succeeded, whether the
`SG_GET_VERSION_NUM` ioctl succeeded with version ≥ 30000, whether each
`SG_IO` ioctl returned 0, and the `sg_err_category3` classification of
each completed command. -/
structure S1In where
  fileGiven : Bool
  openOk : Bool
  sgVersionOk : Bool
  inqIoctlOk : Bool
  inqCat : Option SenseCat
  turIoctlOk : Bool
  turCat : Option SenseCat

/-- sg_simple1.c `main`: the full control flow of the utility, producing
its event trace and exit code. A completed command's classification
(`SG_ERR_CAT_CLEAN` = `inqClean`/`turClean`, `SG_ERR_CAT_RECOVERED`, or
anything else) only selects which message is printed; it never alters the
path to the final `close(sg_fd); return 0;`. -/
def sg_simple1_main (i : S1In) : List (Ev (S1Cmd × Nat)) × Int :=
  if ¬ i.fileGiven then ([], 1)
  else if ¬ i.openOk then ([Ev.openFail], 1)
  else if ¬ i.sgVersionOk then ([Ev.openOk, Ev.close], 1)
  else if ¬ i.inqIoctlOk then
    ([Ev.openOk, Ev.submit (S1Cmd.inquiry, 20000), Ev.close], 1)
  else if ¬ i.turIoctlOk then
    ([Ev.openOk, Ev.submit (S1Cmd.inquiry, 20000),
      Ev.submit (S1Cmd.testUnitReady, 20000), Ev.close], 1)
  else
    ([Ev.openOk, Ev.submit (S1Cmd.inquiry, 20000),
      Ev.submit (S1Cmd.testUnitReady, 20000), Ev.close], 0)

/-- sg_simple1.c lines 112-124 and 156-169: the per-command error
processing. `ok` is set exactly for `SG_ERR_CAT_CLEAN` (here `none`) and
`SG_ERR_CAT_RECOVERED`; every other category only selects the error
message printed. -/
def sg_simple1_ok (c : Option SenseCat) : Bool :=
  match c with
  | none => true
  | some SenseCat.recovered => true
  | some _ => false

/-! ## sg_readcap.c

`main` issues a READ CAPACITY (10) and/or a READ CAPACITY (16). The
embedding covers every path of `main` that touches the device descriptor
or submits a command; printing-only steps are omitted (they do not affect
events or the exit status). -/

/-- The two commands sg_readcap can issue. -/
inductive RcapCmd where
  | rcap10 : RcapCmd
  | rcap16 : RcapCmd
  deriving DecidableEq

/-- Inputs of a sg_readcap run: the parsed options that steer control
flow, and the outcomes of the external calls `main` makes, in program
order. `parseRes` is the `parse_cmd_line` result; `doHelp`, `doHex` are
the counters of `-h` and `-H`; `res10`/`res16` are the
`sg_ll_readcap_10/16` results (`.ok` = 0, `.cat c` = sense category);
`addr10Max` says whether the decoded 10-byte `last_blk_addr` is
0xffffffff; `jsOpenFail` is a failing `fopen` of the `--js-file`
argument. -/
structure RcapIn where
  parseRes : ExitStatus
  doHelp : Nat
  versionGiven : Bool
  doJson : Bool
  jsonOk : Bool
  jsOpenFail : Bool
  inhex : Bool
  deviceGiven : Bool
  doRaw : Bool
  rawOk : Bool
  doZbc : Bool
  doPmi : Bool
  llba : Nat
  doLong : Bool
  doHex : Nat
  allocOk : Bool
  inhexRes : ExitStatus
  inLen : Nat
  openOk : Bool
  res10 : ExitStatus
  addr10Max : Bool
  reopenOk : Bool
  res16 : ExitStatus
  closeErr : Bool

/-- sg_readcap.c label `fini` (lines 902-940), exit-status part: a
failing close of an open descriptor bends a zero `ret` to an errno exit,
then the JSON epilogue turns a still-zero `ret` into
`SG_LIB_FILE_ERROR` when the `--js-file` argument fails to open. -/
def rcFiniRet (i : RcapIn) (fdOpen : Bool) (ret : ExitStatus) : ExitStatus :=
  if i.doJson && i.jsOpenFail
      && ((if fdOpen && i.closeErr && (ret = ExitStatus.ok : Bool)
           then ExitStatus.errnoE else ret) = ExitStatus.ok : Bool)
  then ExitStatus.fileErr
  else if fdOpen && i.closeErr && (ret = ExitStatus.ok : Bool)
  then ExitStatus.errnoE else ret

/-- sg_readcap.c label `fini` (lines 902-940): close the descriptor
exactly when it is open, and deliver the adjusted exit status. -/
def rcFini (i : RcapIn) (evs : List (Ev RcapCmd)) (fdOpen : Bool)
    (ret : ExitStatus) : List (Ev RcapCmd) × ExitStatus :=
  ((if fdOpen then evs ++ [Ev.close] else evs), rcFiniRet i fdOpen ret)

/-- sg_readcap.c lines 777-899: the READ CAPACITY (16) block. A command
is submitted only when a descriptor is open (`sg_fd >= 0`); with `--inhex`
the result is taken as 0. All print branches fall through to `fini` with
`ret = res`. -/
def rc16Phase (i : RcapIn) (evs : List (Ev RcapCmd)) (fdOpen : Bool) :
    List (Ev RcapCmd) × ExitStatus :=
  let evs := if fdOpen then evs ++ [Ev.submit RcapCmd.rcap16] else evs
  let res := if fdOpen then i.res16 else ExitStatus.ok
  rcFini i evs fdOpen res

/-- sg_readcap.c lines 680-776: the READ CAPACITY (10) block. On success
with `--hex`/`--raw` output, or a last block address below 0xffffffff,
control goes to `fini`; a saturated address escalates to the 16-byte
variant on the same descriptor; a `SG_LIB_CAT_INVALID_OP` failure closes
and re-opens the device and escalates; any other failure prints and falls
through (with `do_long` still false) to `fini`. -/
def rc10Phase (i : RcapIn) (doLong : Bool) (evs : List (Ev RcapCmd))
    (fdOpen : Bool) : List (Ev RcapCmd) × ExitStatus :=
  if ¬ doLong then
    let evs := if fdOpen then evs ++ [Ev.submit RcapCmd.rcap10] else evs
    let res := if fdOpen then i.res10 else ExitStatus.ok
    if res = ExitStatus.ok then
      if 0 < i.doHex ∨ (i.doRaw ∧ ¬ i.inhex) then rcFini i evs fdOpen ExitStatus.ok
      else if ¬ i.addr10Max then rcFini i evs fdOpen ExitStatus.ok
      else rc16Phase i evs fdOpen
    else if res = ExitStatus.cat SenseCat.invalidOp ∧ fdOpen then
      let evs := evs ++ [Ev.close]
      if ¬ i.reopenOk then rcFini i (evs ++ [Ev.openFail]) false ExitStatus.errnoE
      else rc16Phase i (evs ++ [Ev.openOk]) true
    else rcFini i evs fdOpen res
  else rc16Phase i evs fdOpen

/-- sg_readcap.c `main` (lines 540-941): early returns for parse errors,
`--help`, `--version` and a bad `--json` argument; the missing-DEVICE and
raw-mode checks; the `--zbc` escalation to the 16-byte variant; the
`--pmi`/`--lba` contradiction check (before any device open); heap
allocation; then either the `--inhex` file read or the device open,
followed by the command phases. -/
def sg_readcap_main (i : RcapIn) : List (Ev RcapCmd) × ExitStatus :=
  if i.parseRes ≠ ExitStatus.ok then ([], i.parseRes)
  else if 0 < i.doHelp then ([], ExitStatus.ok)
  else if i.versionGiven then ([], ExitStatus.ok)
  else if i.doJson ∧ ¬ i.jsonOk then ([], ExitStatus.syntaxErr)
  else if ¬ i.inhex ∧ ¬ i.deviceGiven then ([], ExitStatus.syntaxErr)
  else if i.doRaw ∧ ¬ i.rawOk then ([], ExitStatus.fileErr)
  else if ¬ i.doPmi ∧ 0 < i.llba then rcFini i [] false ExitStatus.contradict
  else if ¬ i.allocOk then ([], ExitStatus.errnoE)
  else if i.inhex then
    if i.inhexRes ≠ ExitStatus.ok then rcFini i [] false i.inhexRes
    else if i.inLen < 4 then rcFini i [] false ExitStatus.syntaxErr
    else rc10Phase i (i.doLong || i.doZbc) [] false
  else if ¬ i.openOk then rcFini i [Ev.openFail] false ExitStatus.errnoE
  else rc10Phase i (i.doLong || i.doZbc) [Ev.openOk] true

/-! ## sg_requests (REQUEST SENSE utility)

`main` builds one 6-byte REQUEST SENSE CDB, then issues it `--num` times
through `do_scsi_pt`. A submission is recorded with the CDB bytes and the
timeout (seconds) passed to `do_scsi_pt`. -/

/-- `MAX_REQS_RESP_LEN` of the REQUEST SENSE utility. -/
def MAX_REQS_RESP_LEN : Nat := 255

/-- `DEF_REQS_RESP_LEN` of the REQUEST SENSE utility. -/
def DEF_REQS_RESP_LEN : Nat := 252

/-- `DEF_PT_TIMEOUT` of the REQUEST SENSE utility: 60 seconds. -/
def DEF_PT_TIMEOUT : Nat := 60

/-- Option validation for `--maxlen=LEN` (lines 179-186): reject a
negative value or one above `MAX_REQS_RESP_LEN`. -/
def rs_parse_maxlen (n : Int) : Except ExitStatus Nat :=
  if n < 0 ∨ (MAX_REQS_RESP_LEN : Int) < n then Except.error ExitStatus.syntaxErr
  else Except.ok n.toNat

/-- Option validation for `--num=NUM` (lines 187-193): reject values
below 1. -/
def rs_parse_num (n : Int) : Except ExitStatus Nat :=
  if n < 1 then Except.error ExitStatus.syntaxErr
  else Except.ok n.toNat

/-- Option validation for `--timeout=SE` (lines 208-214): reject negative
values. -/
def rs_parse_tmo (n : Int) : Except ExitStatus Nat :=
  if n < 0 then Except.error ExitStatus.syntaxErr
  else Except.ok n.toNat

/-- Lines 261-262: a zero (unset) `--maxlen` becomes
`DEF_REQS_RESP_LEN` = 252. -/
def rs_eff_maxlen (maxlen : Nat) : Nat :=
  if maxlen = 0 then DEF_REQS_RESP_LEN else maxlen

/-- Lines 268-269: a zero (unset) `--timeout` becomes
`DEF_PT_TIMEOUT` = 60 seconds. -/
def rs_eff_tmo (tmo : Nat) : Nat :=
  if tmo = 0 then DEF_PT_TIMEOUT else tmo

/-- Lines 147-148 and 308-312: the REQUEST SENSE CDB. It starts as
`{REQUEST_SENSE_CMD, 0, 0, 0, 0, 0}`; `--error` overwrites the opcode
with 0xff, `--desc` ORs 1 into byte 1, and byte 4 receives the (effective)
allocation length. -/
def rs_cdb (doError : Bool) (desc : Bool) (maxlen : Nat) : List Nat :=
  let c : List Nat := [0x3, 0, 0, 0, 0, 0]
  let c := if doError then c.set 0 0xff else c
  let c := if desc then c.set 1 (c.getD 1 0 ||| 0x1) else c
  c.set 4 maxlen

/-- The outcome of one loop iteration's `do_scsi_pt` +
`sg_cmds_process_resp` pair: `osErr` is `n == -1` (transport or OS
error), `senseOut c` is `n == -2` with `sense_cat = c` (`none` denoting
`SG_LIB_CAT_CLEAN`, which `sg_cmds_process_resp` does not produce but the
model tolerates), `din len` is `n >= 0` bytes of parameter data. -/
inductive ReqNOut where
  | osErr : Bool → ReqNOut
  | senseOut : SenseCat → ReqNOut
  | din : Nat → ReqNOut

/-- Per-iteration external outcomes: the processed submission result and
the progress indication `sg_get_sense_progress_fld` would report for the
returned buffer (negative = none). -/
structure ReqIter where
  nOut : ReqNOut
  progress : Int

/-- Inputs of a sg_requests run, after option parsing: the validated
option values (`maxlen`, `numRs`, `tmoArg` as constrained by
`rs_parse_*`), the flag set, the outcomes of the external calls, the
iteration outcomes as a stream, and the classification
`sg_err_category_sense` gives the final parameter data (for `--status`,
`paramCat = none` denoting `SG_LIB_CAT_CLEAN`). -/
structure ReqIn where
  versionGiven : Bool
  desc : Bool
  doError : Nat
  doHex : Nat
  maxlen : Nat
  numRs : Nat
  tmoArg : Nat
  doProgress : Bool
  doRaw : Bool
  doStatus : Bool
  doTime : Bool
  deviceGiven : Bool
  rawSetOk : Bool
  openOk : Bool
  constructOk : Bool
  iters : Nat → ReqIter
  paramCat : Option SenseCat
  normalizeOk : Bool
  ascZero : Bool
  closeErr : Bool

/-- sg_requests label `finish` (lines 536-558): close the descriptor when
it is open; a failing close only bends a zero `ret` to an errno exit. -/
def reqFinish (i : ReqIn) (evs : List (Ev (List Nat × Nat)))
    (fdOpen : Bool) (ret : ExitStatus) :
    List (Ev (List Nat × Nat)) × ExitStatus :=
  ((if fdOpen then evs ++ [Ev.close] else evs),
   (if fdOpen && i.closeErr && (ret = ExitStatus.ok : Bool)
    then ExitStatus.errnoE else ret))

/-- Lines 440-468 (and identically 344-372): the switch on `sense_cat`
after `n == -2`. It yields the `ret` the iteration ends with: recovered
and no-sense continue with `ret` 0; not-ready and the default case set
`ret = sense_cat` only when `--num` is 1; unit attention is ignored. -/
def reqSenseSwitch (numRs : Nat) (c : SenseCat) : ExitStatus :=
  match c with
  | SenseCat.recovered => ExitStatus.ok
  | SenseCat.noSense => ExitStatus.ok
  | SenseCat.notReady =>
      if numRs = 1 then ExitStatus.cat SenseCat.notReady else ExitStatus.ok
  | SenseCat.unitAttention => ExitStatus.ok
  | c => if numRs = 1 then ExitStatus.cat c else ExitStatus.ok

/-- Lines 409-500: the main command loop. Iteration `k` re-sets the same
CDB, submits it (skipped entirely when `--error` was given twice or
more), and dispatches on the processed result: `n == -1` leaves through
`finish` with a transport/OS error; `n == -2` runs the sense switch and
leaves when it produced a nonzero `ret`; `n >= 0` records the data-in
length. The returned sum is either the early-exit status or the final
iteration's `act_din_len`. -/
def reqLoop (i : ReqIn) (cdb : List Nat) (tmo : Nat) :
    Nat → Nat → List (Ev (List Nat × Nat)) → Nat →
    List (Ev (List Nat × Nat)) × (ExitStatus ⊕ Nat)
  | 0, _, evs, lastDin => (evs, Sum.inr lastDin)
  | fuel + 1, k, evs, _ =>
    if 1 < i.doError then
      reqLoop i cdb tmo fuel (k + 1) evs 0
    else
      let evs := evs ++ [Ev.submit (cdb, tmo)]
      match (i.iters k).nOut with
      | ReqNOut.osErr transport =>
          (evs, Sum.inl (if transport then ExitStatus.transportErr
                         else ExitStatus.errnoE))
      | ReqNOut.senseOut c =>
          match reqSenseSwitch i.numRs c with
          | ExitStatus.ok => reqLoop i cdb tmo fuel (k + 1) evs 0
          | r => (evs, Sum.inl r)
      | ReqNOut.din n => reqLoop i cdb tmo fuel (k + 1) evs n

/-- Lines 313-399: the `--progress` loop. Each iteration submits the same
CDB and processes the result exactly as the main loop does; afterwards it
reads the progress field of the returned sense and leaves the loop (with
`ret` still 0) as soon as none is found. With `--error` given twice the
buffer stays zeroed, so no progress is found and the loop exits at once. -/
def reqProgLoop (i : ReqIn) (cdb : List Nat) (tmo : Nat) :
    Nat → Nat → List (Ev (List Nat × Nat)) →
    List (Ev (List Nat × Nat)) × ExitStatus
  | 0, _, evs => (evs, ExitStatus.ok)
  | fuel + 1, k, evs =>
    if 1 < i.doError then (evs, ExitStatus.ok)
    else
      let evs := evs ++ [Ev.submit (cdb, tmo)]
      match (i.iters k).nOut with
      | ReqNOut.osErr transport =>
          (evs, if transport then ExitStatus.transportErr
                else ExitStatus.errnoE)
      | ReqNOut.senseOut c =>
          match reqSenseSwitch i.numRs c with
          | ExitStatus.ok =>
              if (i.iters k).progress < 0 then (evs, ExitStatus.ok)
              else reqProgLoop i cdb tmo fuel (k + 1) evs
          | r => (evs, r)
      | ReqNOut.din _ =>
          if (i.iters k).progress < 0 then (evs, ExitStatus.ok)
          else reqProgLoop i cdb tmo fuel (k + 1) evs

/-- Lines 501-511: with `--status`, a zero `ret` is replaced by the
category of the final parameter data; a no-sense category with zero
asc/ascq is mapped back to 0. -/
def reqStatusRet (i : ReqIn) : ExitStatus :=
  if i.doStatus then
    match i.paramCat with
    | none => ExitStatus.ok
    | some SenseCat.noSense =>
        if i.normalizeOk ∧ i.ascZero then ExitStatus.ok
        else ExitStatus.cat SenseCat.noSense
    | some c => ExitStatus.cat c
  else ExitStatus.ok

/-- sg_requests `main` (lines 118-559) after option parsing: the
`--version` early return, the effective `maxlen`/`tmo` defaults, the
missing-DEVICE check, binary-mode setup for `--raw`, the
raw-or-hex/progress-or-time contradiction check, device open and pt-object
construction, CDB construction (lines 308-312), then one of the two
command loops and the `--status` epilogue. -/
def sg_requests_main (i : ReqIn) : List (Ev (List Nat × Nat)) × ExitStatus :=
  if i.versionGiven then ([], ExitStatus.ok)
  else if ¬ i.deviceGiven then ([], ExitStatus.syntaxErr)
  else if i.doRaw ∧ ¬ i.rawSetOk then ([], ExitStatus.fileErr)
  else if (i.doRaw ∨ 0 < i.doHex) ∧ (i.doProgress ∨ i.doTime) then
    reqFinish i [] false ExitStatus.contradict
  else if ¬ i.openOk then reqFinish i [Ev.openFail] false ExitStatus.errnoE
  else if ¬ i.constructOk then reqFinish i [Ev.openOk] true ExitStatus.errnoE
  else if i.doProgress then
    match reqProgLoop i (rs_cdb (0 < i.doError) i.desc (rs_eff_maxlen i.maxlen))
        (rs_eff_tmo i.tmoArg) i.numRs 0 [Ev.openOk] with
    | (evs, ret) => reqFinish i evs true ret
  else
    match reqLoop i (rs_cdb (0 < i.doError) i.desc (rs_eff_maxlen i.maxlen))
        (rs_eff_tmo i.tmoArg) i.numRs 0 [Ev.openOk] 0 with
    | (evs, Sum.inl ret) => reqFinish i evs true ret
    | (evs, Sum.inr _) => reqFinish i evs true (reqStatusRet i)

/-! ## Trace bookkeeping lemmas -/

@[simp] lemma countClose_close_one {α : Type} :
    countClose ([Ev.close] : List (Ev α)) = 1 := rfl

@[simp] lemma countClose_openOk_one {α : Type} :
    countClose ([Ev.openOk] : List (Ev α)) = 0 := rfl

@[simp] lemma countClose_openFail_one {α : Type} :
    countClose ([Ev.openFail] : List (Ev α)) = 0 := rfl

@[simp] lemma countClose_submit_one {α : Type} (c : α) :
    countClose [Ev.submit c] = 0 := rfl

@[simp] lemma countOpenOk_close_one {α : Type} :
    countOpenOk ([Ev.close] : List (Ev α)) = 0 := rfl

@[simp] lemma countOpenOk_openOk_one {α : Type} :
    countOpenOk ([Ev.openOk] : List (Ev α)) = 1 := rfl

@[simp] lemma countOpenOk_openFail_one {α : Type} :
    countOpenOk ([Ev.openFail] : List (Ev α)) = 0 := rfl

@[simp] lemma countOpenOk_submit_one {α : Type} (c : α) :
    countOpenOk [Ev.submit c] = 0 := rfl

@[simp] lemma submitsOf_close_one {α : Type} :
    submitsOf ([Ev.close] : List (Ev α)) = [] := rfl

@[simp] lemma submitsOf_openOk_one {α : Type} :
    submitsOf ([Ev.openOk] : List (Ev α)) = [] := rfl

@[simp] lemma submitsOf_openFail_one {α : Type} :
    submitsOf ([Ev.openFail] : List (Ev α)) = [] := rfl

@[simp] lemma submitsOf_submit_one {α : Type} (c : α) :
    submitsOf [Ev.submit c] = [c] := rfl

@[simp] lemma submitsOf_cons_openOk {α : Type} (es : List (Ev α)) :
    submitsOf (Ev.openOk :: es) = submitsOf es := rfl

@[simp] lemma submitsOf_cons_openFail {α : Type} (es : List (Ev α)) :
    submitsOf (Ev.openFail :: es) = submitsOf es := rfl

@[simp] lemma submitsOf_cons_close {α : Type} (es : List (Ev α)) :
    submitsOf (Ev.close :: es) = submitsOf es := rfl

@[simp] lemma submitsOf_cons_submit {α : Type} (c : α) (es : List (Ev α)) :
    submitsOf (Ev.submit c :: es) = c :: submitsOf es := rfl

@[simp] lemma countClose_cons_openOk {α : Type} (es : List (Ev α)) :
    countClose (Ev.openOk :: es) = countClose es := by
  simp [countClose, List.countP_cons]

@[simp] lemma countClose_cons_openFail {α : Type} (es : List (Ev α)) :
    countClose (Ev.openFail :: es) = countClose es := by
  simp [countClose, List.countP_cons]

@[simp] lemma countClose_cons_close {α : Type} (es : List (Ev α)) :
    countClose (Ev.close :: es) = countClose es + 1 := by
  simp [countClose, List.countP_cons]

@[simp] lemma countClose_cons_submit {α : Type} (c : α) (es : List (Ev α)) :
    countClose (Ev.submit c :: es) = countClose es := by
  simp [countClose, List.countP_cons]

@[simp] lemma countOpenOk_cons_openOk {α : Type} (es : List (Ev α)) :
    countOpenOk (Ev.openOk :: es) = countOpenOk es + 1 := by
  simp [countOpenOk, List.countP_cons]

@[simp] lemma countOpenOk_cons_openFail {α : Type} (es : List (Ev α)) :
    countOpenOk (Ev.openFail :: es) = countOpenOk es := by
  simp [countOpenOk, List.countP_cons]

@[simp] lemma countOpenOk_cons_close {α : Type} (es : List (Ev α)) :
    countOpenOk (Ev.close :: es) = countOpenOk es := by
  simp [countOpenOk, List.countP_cons]

@[simp] lemma countOpenOk_cons_submit {α : Type} (c : α) (es : List (Ev α)) :
    countOpenOk (Ev.submit c :: es) = countOpenOk es := by
  simp [countOpenOk, List.countP_cons]

lemma rcFini_evs (i : RcapIn) (evs : List (Ev RcapCmd)) (fdOpen : Bool)
    (ret : ExitStatus) :
    (rcFini i evs fdOpen ret).1
      = evs ++ (if fdOpen then [Ev.close] else []) := by
  unfold rcFini
  cases fdOpen <;> simp

lemma rc16Phase_evs (i : RcapIn) (evs : List (Ev RcapCmd)) (fdOpen : Bool) :
    (rc16Phase i evs fdOpen).1
      = evs ++ (if fdOpen then [Ev.submit RcapCmd.rcap16, Ev.close] else []) := by
  unfold rc16Phase
  cases fdOpen <;> simp [rcFini_evs]

/-! ## Claim C2 (corrected) -/

/-- The concrete sg_simple1 invocation refuting claim C2: every external
call succeeds and the TEST UNIT READY command completes with a
classification that is neither clean nor recovered. -/
def c2CtrexIn : S1In :=
  { fileGiven := true, openOk := true, sgVersionOk := true,
    inqIoctlOk := true, inqCat := none,
    turIoctlOk := true, turCat := some SenseCat.otherCat }

/-- C2 counterexample: in sg_simple1 a TEST UNIT READY command is
submitted and completes with a classified outcome that is not clean
success or recovered error, yet the process exit code is 0 — the exit
code does not communicate the command outcome. -/
theorem sg_simple1_exit_zero_despite_bad_category :
    Ev.submit (S1Cmd.testUnitReady, 20000) ∈ (sg_simple1_main c2CtrexIn).1
    ∧ sg_simple1_ok c2CtrexIn.turCat = false
    ∧ (sg_simple1_main c2CtrexIn).2 = 0 := by decide

/-- C2 as amended: sg_simple1's exit code never reflects the classified
outcome — whenever argument parsing, open, the version check and both
`SG_IO` ioctls succeed it exits 0 regardless of the classifications; and
sg_requests with `--num=1` (no `--status`, `--progress`, `--raw`, `--hex`
or `--error`) exits with the command's sense category exactly when that
category is not-ready or an unlisted one, while recovered, no-sense and
unit-attention outcomes exit 0. -/
theorem exit_code_vs_category_amended :
    (∀ i : S1In, i.fileGiven = true → i.openOk = true →
      i.sgVersionOk = true → i.inqIoctlOk = true → i.turIoctlOk = true →
      (sg_simple1_main i).2 = 0)
    ∧ (∀ (i : ReqIn) (c : SenseCat), i.versionGiven = false →
      i.deviceGiven = true → i.doRaw = false → i.doHex = 0 →
      i.doProgress = false → i.doError = 0 → i.openOk = true →
      i.constructOk = true → i.numRs = 1 → i.doStatus = false →
      i.closeErr = false → (i.iters 0).nOut = ReqNOut.senseOut c →
      (sg_requests_main i).2
        = (match c with
           | SenseCat.recovered => ExitStatus.ok
           | SenseCat.noSense => ExitStatus.ok
           | SenseCat.unitAttention => ExitStatus.ok
           | c => ExitStatus.cat c)) := by
  constructor
  · intro i h1 h2 h3 h4 h5
    simp [sg_simple1_main, h1, h2, h3, h4, h5]
  · intro i c hv hd hr hh hp he ho hc hn hs hcl hit
    cases c <;>
      simp [sg_requests_main, reqLoop, reqFinish, reqStatusRet,
            reqSenseSwitch, hv, hd, hr, hh, hp, he, ho, hc, hn, hs, hcl, hit]

/-- A concrete sg_requests invocation whose single command classifies as
not-ready. -/
def c2WitReqIn : ReqIn :=
  { versionGiven := false, desc := false, doError := 0, doHex := 0,
    maxlen := 0, numRs := 1, tmoArg := 0, doProgress := false,
    doRaw := false, doStatus := false, doTime := false,
    deviceGiven := true, rawSetOk := true, openOk := true,
    constructOk := true,
    iters := fun _ => { nOut := ReqNOut.senseOut SenseCat.notReady,
                        progress := -1 },
    paramCat := none, normalizeOk := true, ascZero := true,
    closeErr := false }

theorem exit_code_vs_category_amended_witness :
    (sg_simple1_main c2CtrexIn).2 = 0
    ∧ (sg_requests_main c2WitReqIn).2 = ExitStatus.cat SenseCat.notReady := by
  constructor
  · exact exit_code_vs_category_amended.1 c2CtrexIn rfl rfl rfl rfl rfl
  · exact exit_code_vs_category_amended.2 c2WitReqIn SenseCat.notReady
      rfl rfl rfl rfl rfl rfl rfl rfl rfl rfl rfl rfl

/-! ## Claim C3 (corrected) -/

/-- The concrete sg_readcap invocation refuting claim C3: the device
opens, READ CAPACITY (10) fails with `SG_LIB_CAT_INVALID_OP`, and the
device re-opens for the fallback. -/
def c3CtrexIn : RcapIn :=
  { parseRes := ExitStatus.ok, doHelp := 0, versionGiven := false,
    doJson := false, jsonOk := true, jsOpenFail := false,
    inhex := false, deviceGiven := true, doRaw := false, rawOk := true,
    doZbc := false, doPmi := false, llba := 0, doLong := false,
    doHex := 0, allocOk := true, inhexRes := ExitStatus.ok, inLen := 0,
    openOk := true, res10 := ExitStatus.cat SenseCat.invalidOp,
    addr10Max := false, reopenOk := true, res16 := ExitStatus.ok,
    closeErr := false }

/-- C3 counterexample: in sg_readcap the submitted READ CAPACITY (10)
fails (`res10` is not 0), and yet a second SCSI command — READ CAPACITY
(16) — is submitted afterwards on the same run. -/
theorem sg_readcap_submits_after_failure :
    submitsOf (sg_readcap_main c3CtrexIn).1
      = [RcapCmd.rcap10, RcapCmd.rcap16]
    ∧ c3CtrexIn.res10 ≠ ExitStatus.ok := by decide

lemma rc10Phase_submits (i : RcapIn) (doLong : Bool)
    (evs : List (Ev RcapCmd)) (fdOpen : Bool) :
    submitsOf (rc10Phase i doLong evs fdOpen).1 = submitsOf evs
    ∨ submitsOf (rc10Phase i doLong evs fdOpen).1
        = submitsOf evs ++ [RcapCmd.rcap10]
    ∨ submitsOf (rc10Phase i doLong evs fdOpen).1
        = submitsOf evs ++ [RcapCmd.rcap16]
    ∨ (submitsOf (rc10Phase i doLong evs fdOpen).1
        = submitsOf evs ++ [RcapCmd.rcap10, RcapCmd.rcap16]
      ∧ ((i.res10 = ExitStatus.ok ∧ i.addr10Max = true)
        ∨ i.res10 = ExitStatus.cat SenseCat.invalidOp)) := by
  cases doLong with
  | true =>
    cases fdOpen with
    | false => left; simp [rc10Phase, rc16Phase_evs]
    | true =>
      refine Or.inr (Or.inr (Or.inl ?_))
      simp [rc10Phase, rc16Phase_evs]
  | false =>
    cases fdOpen with
    | false =>
      left
      simp only [rc10Phase, rc16Phase_evs, rcFini_evs, Bool.false_eq_true,
        if_false, if_true, apply_ite Prod.fst, apply_ite submitsOf]
      simp
    | true =>
      by_cases hok : i.res10 = ExitStatus.ok
      · by_cases hC : 0 < i.doHex ∨ (i.doRaw = true ∧ i.inhex = false)
        · refine Or.inr (Or.inl ?_)
          simp [rc10Phase, rcFini_evs, hok, hC]
        · by_cases haddr : i.addr10Max = false
          · refine Or.inr (Or.inl ?_)
            simp [rc10Phase, rcFini_evs, hok, hC, haddr]
          · have haddr2 : i.addr10Max = true := by simpa using haddr
            refine Or.inr (Or.inr (Or.inr ⟨?_, Or.inl ⟨hok, haddr2⟩⟩))
            simp [rc10Phase, rc16Phase_evs, hok, hC, haddr]
      · by_cases hinv : i.res10 = ExitStatus.cat SenseCat.invalidOp
        · cases hro : i.reopenOk with
          | false =>
            refine Or.inr (Or.inl ?_)
            simp [rc10Phase, rcFini_evs, hok, hinv, hro]
          | true =>
            refine Or.inr (Or.inr (Or.inr ⟨?_, Or.inr hinv⟩))
            simp [rc10Phase, rc16Phase_evs, hok, hinv, hro]
        · refine Or.inr (Or.inl ?_)
          simp [rc10Phase, rcFini_evs, hok, hinv]

/-- C3 as amended: only the system-call/transport level obeys the claim —
a failed submission call stops every utility (sg_simple1 submits nothing
further after a failed `SG_IO` ioctl; sg_requests leaves its repetition
loop at once on a transport/OS error). At the SCSI-classification level
all three utilities can submit further commands after a failure:
sg_readcap's runs submit a second command after the first only when READ
CAPACITY (10) either succeeded with its address saturated at 0xffffffff
or failed classified `SG_LIB_CAT_INVALID_OP`, each leading to exactly one
READ CAPACITY (16) fallback; sg_simple1 still submits TEST UNIT READY
after a completed INQUIRY regardless of the INQUIRY's classification; and
sg_requests with `--num` other than 1 records its submission and
continues the loop after every sense classification. -/
theorem no_retry_after_failure_amended :
    (∀ i : RcapIn, submitsOf (sg_readcap_main i).1 = []
      ∨ submitsOf (sg_readcap_main i).1 = [RcapCmd.rcap10]
      ∨ submitsOf (sg_readcap_main i).1 = [RcapCmd.rcap16]
      ∨ (submitsOf (sg_readcap_main i).1 = [RcapCmd.rcap10, RcapCmd.rcap16]
        ∧ ((i.res10 = ExitStatus.ok ∧ i.addr10Max = true)
          ∨ i.res10 = ExitStatus.cat SenseCat.invalidOp)))
    ∧ (∀ i : S1In, i.inqIoctlOk = false →
      submitsOf (sg_simple1_main i).1 = []
      ∨ submitsOf (sg_simple1_main i).1 = [(S1Cmd.inquiry, 20000)])
    ∧ (∀ i : S1In, i.fileGiven = true → i.openOk = true →
      i.sgVersionOk = true → i.inqIoctlOk = true → i.turIoctlOk = true →
      Ev.submit (S1Cmd.testUnitReady, 20000) ∈ (sg_simple1_main i).1)
    ∧ (∀ (i : ReqIn) (cdb : List Nat) (tmo fuel k d : Nat)
        (evs : List (Ev (List Nat × Nat))) (t : Bool),
      i.doError ≤ 1 → (i.iters k).nOut = ReqNOut.osErr t →
      reqLoop i cdb tmo (fuel + 1) k evs d
        = (evs ++ [Ev.submit (cdb, tmo)],
           Sum.inl (if t then ExitStatus.transportErr
                    else ExitStatus.errnoE)))
    ∧ (∀ (i : ReqIn) (cdb : List Nat) (tmo fuel k d : Nat)
        (evs : List (Ev (List Nat × Nat))) (c : SenseCat),
      i.doError ≤ 1 → (i.iters k).nOut = ReqNOut.senseOut c →
      i.numRs ≠ 1 →
      reqLoop i cdb tmo (fuel + 1) k evs d
        = reqLoop i cdb tmo fuel (k + 1) (evs ++ [Ev.submit (cdb, tmo)]) 0) := by
  refine ⟨?_, ?_, ?_, ?_, ?_⟩
  · intro i
    by_cases h1 : i.parseRes = ExitStatus.ok
    swap
    · left; simp [sg_readcap_main, h1]
    by_cases h2 : 0 < i.doHelp
    · left; simp [sg_readcap_main, h1, h2]
    by_cases h3 : i.versionGiven = true
    · left; simp [sg_readcap_main, h1, h2, h3]
    by_cases h4 : i.doJson = true ∧ i.jsonOk = false
    · left; simp [sg_readcap_main, h1, h2, h3, h4]
    by_cases h5 : i.inhex = false ∧ i.deviceGiven = false
    · left; simp [sg_readcap_main, h1, h2, h3, h4, h5]
    by_cases h6 : i.doRaw = true ∧ i.rawOk = false
    · left; simp [sg_readcap_main, h1, h2, h3, h4, h5, h6]
    by_cases h7 : i.doPmi = false ∧ 0 < i.llba
    · left; simp [sg_readcap_main, rcFini_evs, h1, h2, h3, h4, h5, h6, h7]
    by_cases h8 : i.allocOk = false
    · left; simp [sg_readcap_main, h1, h2, h3, h4, h5, h6, h7, h8]
    by_cases h9 : i.inhex = true
    · by_cases h10 : i.inhexRes = ExitStatus.ok
      swap
      · left
        simp [sg_readcap_main, rcFini_evs, h1, h2, h3, h4, h5, h6, h7, h8,
          h9, h10]
      by_cases h11 : i.inLen < 4
      · left
        simp [sg_readcap_main, rcFini_evs, h1, h2, h3, h4, h5, h6, h7, h8,
          h9, h10, h11]
      · have h := rc10Phase_submits i (i.doLong || i.doZbc) [] false
        simp only [submitsOf_nil, List.nil_append] at h
        simpa [sg_readcap_main, h1, h2, h3, h4, h5, h6, h7, h8, h9, h10,
          h11] using h
    · have h9f : i.inhex = false := by simpa using h9
      have hdev : i.deviceGiven = true := by
        cases hd : i.deviceGiven
        · exact absurd ⟨h9f, hd⟩ h5
        · rfl
      by_cases h12 : i.openOk = false
      · left
        simp [sg_readcap_main, rcFini_evs, h1, h2, h3, h4, h9f, hdev, h6,
          h7, h8, h12]
      · have h := rc10Phase_submits i (i.doLong || i.doZbc) [Ev.openOk] true
        simp only [submitsOf_openOk_one, List.nil_append] at h
        simpa [sg_readcap_main, h1, h2, h3, h4, h9f, hdev, h6, h7, h8, h12]
          using h
  · intro i h
    cases hf : i.fileGiven <;> cases ho : i.openOk <;>
      cases hv : i.sgVersionOk <;>
        simp [sg_simple1_main, hf, ho, hv, h]
  · intro i h1 h2 h3 h4 h5
    simp [sg_simple1_main, h1, h2, h3, h4, h5]
  · intro i cdb tmo fuel k d evs t hde hit
    have hnot : ¬ 1 < i.doError := by omega
    simp [reqLoop, hnot, hit]
  · intro i cdb tmo fuel k d evs c hde hit hnum
    have hnot : ¬ 1 < i.doError := by omega
    have hsw : reqSenseSwitch i.numRs c = ExitStatus.ok := by
      cases c <;> simp [reqSenseSwitch, hnum]
    rw [reqLoop, if_neg hnot]
    simp [hit, hsw]

/-- A concrete sg_requests invocation whose first command submission
fails with a transport error. -/
def c3WitReqIn : ReqIn :=
  { c2WitReqIn with
    iters := fun _ => { nOut := ReqNOut.osErr true, progress := -1 } }

/-- A concrete sg_simple1 invocation whose INQUIRY completes but is
classified as an unrecognized error category. -/
def c3S1CatIn : S1In :=
  { c2CtrexIn with inqCat := some SenseCat.otherCat }

/-- A concrete sg_requests invocation with `--num=2` whose commands all
classify as not-ready. -/
def c3Num2In : ReqIn := { c2WitReqIn with numRs := 2 }

theorem no_retry_after_failure_amended_witness :
    (submitsOf (sg_readcap_main c3CtrexIn).1 = []
      ∨ submitsOf (sg_readcap_main c3CtrexIn).1 = [RcapCmd.rcap10]
      ∨ submitsOf (sg_readcap_main c3CtrexIn).1 = [RcapCmd.rcap16]
      ∨ (submitsOf (sg_readcap_main c3CtrexIn).1
          = [RcapCmd.rcap10, RcapCmd.rcap16]
        ∧ ((c3CtrexIn.res10 = ExitStatus.ok ∧ c3CtrexIn.addr10Max = true)
          ∨ c3CtrexIn.res10 = ExitStatus.cat SenseCat.invalidOp)))
    ∧ (submitsOf (sg_simple1_main
        { c2CtrexIn with inqIoctlOk := false }).1 = []
      ∨ submitsOf (sg_simple1_main
        { c2CtrexIn with inqIoctlOk := false }).1 = [(S1Cmd.inquiry, 20000)])
    ∧ Ev.submit (S1Cmd.testUnitReady, 20000) ∈ (sg_simple1_main c3S1CatIn).1
    ∧ reqLoop c3WitReqIn (rs_cdb false false 252) 60 1 0 [] 0
        = ([Ev.submit (rs_cdb false false 252, 60)],
           Sum.inl ExitStatus.transportErr)
    ∧ reqLoop c3Num2In (rs_cdb false false 252) 60 2 0 [] 0
        = reqLoop c3Num2In (rs_cdb false false 252) 60 1 1
            [Ev.submit (rs_cdb false false 252, 60)] 0 := by
  refine ⟨no_retry_after_failure_amended.1 c3CtrexIn,
    no_retry_after_failure_amended.2.1 _ rfl,
    no_retry_after_failure_amended.2.2.1 c3S1CatIn rfl rfl rfl rfl rfl,
    ?_, ?_⟩
  · simpa using no_retry_after_failure_amended.2.2.2.1 c3WitReqIn
      (rs_cdb false false 252) 60 0 0 0 [] true (by decide) rfl
  · simpa using no_retry_after_failure_amended.2.2.2.2 c3Num2In
      (rs_cdb false false 252) 60 1 0 0 [] SenseCat.notReady (by decide)
      rfl (by decide)

/-! ## Structure of the sg_requests command loops -/

@[simp] lemma countClose_replicate_submit {α : Type} (n : Nat) (c : α) :
    countClose (List.replicate n (Ev.submit c)) = 0 := by
  induction n with
  | zero => rfl
  | succ m ih => simp [List.replicate_succ, ih]

@[simp] lemma countOpenOk_replicate_submit {α : Type} (n : Nat) (c : α) :
    countOpenOk (List.replicate n (Ev.submit c)) = 0 := by
  induction n with
  | zero => rfl
  | succ m ih => simp [List.replicate_succ, ih]

@[simp] lemma submitsOf_replicate_submit {α : Type} (n : Nat) (c : α) :
    submitsOf (List.replicate n (Ev.submit c)) = List.replicate n c := by
  induction n with
  | zero => rfl
  | succ m ih => simp [List.replicate_succ, ih]

/-- Both command loops only ever append submissions of the one CDB/timeout
pair they were given: the main loop's events are the incoming ones plus
some number of identical submissions. -/
lemma reqLoop_evs (i : ReqIn) (cdb : List Nat) (tmo : Nat) :
    ∀ (fuel k d : Nat) (evs : List (Ev (List Nat × Nat))),
      ∃ n : Nat, (reqLoop i cdb tmo fuel k evs d).1
        = evs ++ List.replicate n (Ev.submit (cdb, tmo)) := by
  intro fuel
  induction fuel with
  | zero => intro k d evs; exact ⟨0, by simp [reqLoop]⟩
  | succ m ih =>
    intro k d evs
    rw [reqLoop]
    by_cases hde : 1 < i.doError
    · rw [if_pos hde]; exact ih _ _ _
    · rw [if_neg hde]
      rcases hn : (i.iters k).nOut with t | c | mm
      · exact ⟨1, by simp⟩
      · cases hs : reqSenseSwitch i.numRs c with
        | ok =>
          simp only [hs]
          obtain ⟨n, hn2⟩ := ih (k + 1) 0 (evs ++ [Ev.submit (cdb, tmo)])
          exact ⟨n + 1,
            hn2.trans (by simp [List.replicate_succ, List.append_assoc])⟩
        | syntaxErr => exact ⟨1, by simp [hs]⟩
        | contradict => exact ⟨1, by simp [hs]⟩
        | fileErr => exact ⟨1, by simp [hs]⟩
        | transportErr => exact ⟨1, by simp [hs]⟩
        | errnoE => exact ⟨1, by simp [hs]⟩
        | cat c2 => exact ⟨1, by simp [hs]⟩
        | otherErr => exact ⟨1, by simp [hs]⟩
      · obtain ⟨n, hn2⟩ := ih (k + 1) mm (evs ++ [Ev.submit (cdb, tmo)])
        exact ⟨n + 1,
          hn2.trans (by simp [List.replicate_succ, List.append_assoc])⟩

/-- The `--progress` loop likewise only appends identical submissions. -/
lemma reqProgLoop_evs (i : ReqIn) (cdb : List Nat) (tmo : Nat) :
    ∀ (fuel k : Nat) (evs : List (Ev (List Nat × Nat))),
      ∃ n : Nat, (reqProgLoop i cdb tmo fuel k evs).1
        = evs ++ List.replicate n (Ev.submit (cdb, tmo)) := by
  intro fuel
  induction fuel with
  | zero => intro k evs; exact ⟨0, by simp [reqProgLoop]⟩
  | succ m ih =>
    intro k evs
    rw [reqProgLoop]
    by_cases hde : 1 < i.doError
    · rw [if_pos hde]; exact ⟨0, by simp⟩
    · rw [if_neg hde]
      rcases hn : (i.iters k).nOut with t | c | mm
      · exact ⟨1, by simp⟩
      · cases hs : reqSenseSwitch i.numRs c with
        | ok =>
          simp only [hs]
          by_cases hpr : (i.iters k).progress < 0
          · exact ⟨1, by simp [hpr]⟩
          · simp only [if_neg hpr]
            obtain ⟨n, hn2⟩ := ih (k + 1) (evs ++ [Ev.submit (cdb, tmo)])
            exact ⟨n + 1,
              hn2.trans (by simp [List.replicate_succ, List.append_assoc])⟩
        | syntaxErr => exact ⟨1, by simp [hs]⟩
        | contradict => exact ⟨1, by simp [hs]⟩
        | fileErr => exact ⟨1, by simp [hs]⟩
        | transportErr => exact ⟨1, by simp [hs]⟩
        | errnoE => exact ⟨1, by simp [hs]⟩
        | cat c2 => exact ⟨1, by simp [hs]⟩
        | otherErr => exact ⟨1, by simp [hs]⟩
      · by_cases hpr : (i.iters k).progress < 0
        · exact ⟨1, by simp [hpr]⟩
        · simp only [if_neg hpr]
          obtain ⟨n, hn2⟩ := ih (k + 1) (evs ++ [Ev.submit (cdb, tmo)])
          exact ⟨n + 1,
            hn2.trans (by simp [List.replicate_succ, List.append_assoc])⟩

/-- Every submission of a sg_requests run carries the one CDB built before
the loops and the one effective timeout. -/
lemma sg_requests_submits (i : ReqIn) (p : List Nat × Nat)
    (hp : p ∈ submitsOf (sg_requests_main i).1) :
    p = (rs_cdb (0 < i.doError) i.desc (rs_eff_maxlen i.maxlen),
         rs_eff_tmo i.tmoArg) := by
  unfold sg_requests_main at hp
  split at hp
  · simp at hp
  split at hp
  · simp at hp
  split at hp
  · simp at hp
  split at hp
  · simp [reqFinish] at hp
  split at hp
  · simp [reqFinish] at hp
  split at hp
  · simp [reqFinish] at hp
  split at hp
  · split at hp
    next evs ret hloop =>
      obtain ⟨n, hn⟩ := reqProgLoop_evs i
        (rs_cdb (0 < i.doError) i.desc (rs_eff_maxlen i.maxlen))
        (rs_eff_tmo i.tmoArg) i.numRs 0 [Ev.openOk]
      rw [hloop] at hn
      have hevs : evs = [Ev.openOk]
          ++ List.replicate n (Ev.submit
            (rs_cdb (0 < i.doError) i.desc (rs_eff_maxlen i.maxlen),
             rs_eff_tmo i.tmoArg)) := by simpa using hn
      subst hevs
      simp [reqFinish, List.mem_replicate] at hp
      exact hp.2
  · split at hp
    next evs ret hloop =>
      obtain ⟨n, hn⟩ := reqLoop_evs i
        (rs_cdb (0 < i.doError) i.desc (rs_eff_maxlen i.maxlen))
        (rs_eff_tmo i.tmoArg) i.numRs 0 0 [Ev.openOk]
      rw [hloop] at hn
      have hevs : evs = [Ev.openOk]
          ++ List.replicate n (Ev.submit
            (rs_cdb (0 < i.doError) i.desc (rs_eff_maxlen i.maxlen),
             rs_eff_tmo i.tmoArg)) := by simpa using hn
      subst hevs
      simp [reqFinish, List.mem_replicate] at hp
      exact hp.2
    next evs d hloop =>
      obtain ⟨n, hn⟩ := reqLoop_evs i
        (rs_cdb (0 < i.doError) i.desc (rs_eff_maxlen i.maxlen))
        (rs_eff_tmo i.tmoArg) i.numRs 0 0 [Ev.openOk]
      rw [hloop] at hn
      have hevs : evs = [Ev.openOk]
          ++ List.replicate n (Ev.submit
            (rs_cdb (0 < i.doError) i.desc (rs_eff_maxlen i.maxlen),
             rs_eff_tmo i.tmoArg)) := by simpa using hn
      subst hevs
      simp [reqFinish, List.mem_replicate] at hp
      exact hp.2

/-! ## Claim C4 (corrected) -/

/-- A concrete sg_requests invocation with `--timeout` absent (tmoArg 0)
whose single command returns no data. -/
def c4DefIn : ReqIn :=
  { c2WitReqIn with
    iters := fun _ => { nOut := ReqNOut.din 0, progress := -1 } }

/-- The same invocation with `--timeout=5`. -/
def c4TmoIn : ReqIn := { c4DefIn with tmoArg := 5 }

/-- C4 counterexample: sg_requests does not use a hardcoded ~20 second
timeout — with `--timeout` absent its command is submitted with a
60-second timeout (`DEF_PT_TIMEOUT`), and the timeout is configurable:
`--timeout=5` issues the same command with 5 seconds. -/
theorem sg_requests_timeout_not_20s :
    submitsOf (sg_requests_main c4DefIn).1
      = [(rs_cdb false false 252, 60)]
    ∧ submitsOf (sg_requests_main c4TmoIn).1
      = [(rs_cdb false false 252, 5)]
    ∧ DEF_PT_TIMEOUT ≠ 20 := by decide

/-- The submission list of a sg_simple1 run is a prefix of
INQUIRY-then-TEST-UNIT-READY, both with timeout 20000 ms. -/
lemma sg_simple1_submits_shape (i : S1In) :
    submitsOf (sg_simple1_main i).1 = []
    ∨ submitsOf (sg_simple1_main i).1 = [(S1Cmd.inquiry, 20000)]
    ∨ submitsOf (sg_simple1_main i).1
        = [(S1Cmd.inquiry, 20000), (S1Cmd.testUnitReady, 20000)] := by
  unfold sg_simple1_main
  split
  · simp
  split
  · simp
  split
  · simp
  split
  · simp
  split
  · simp
  · simp

/-- C4 as amended: sg_simple1 issues both of its commands with the
hardcoded `io_hdr.timeout` of 20000 milliseconds (20 seconds); sg_requests
issues every one of its submissions with one and the same timeout, namely
the `--timeout` argument in seconds, defaulting to `DEF_PT_TIMEOUT` = 60
seconds when absent or zero. -/
theorem command_timeouts_amended :
    (∀ (i : S1In) (p : S1Cmd × Nat),
      p ∈ submitsOf (sg_simple1_main i).1 → p.2 = 20000)
    ∧ (∀ (i : ReqIn) (p : List Nat × Nat),
      p ∈ submitsOf (sg_requests_main i).1 → p.2 = rs_eff_tmo i.tmoArg)
    ∧ rs_eff_tmo 0 = DEF_PT_TIMEOUT := by
  refine ⟨?_, ?_, rfl⟩
  · intro i p hp
    rcases sg_simple1_submits_shape i with h | h | h <;> rw [h] at hp
    · exact absurd hp (List.not_mem_nil p)
    · simp only [List.mem_singleton] at hp
      subst hp; rfl
    · simp only [List.mem_cons, List.not_mem_nil, or_false] at hp
      rcases hp with rfl | rfl <;> rfl
  · intro i p hp
    rw [sg_requests_submits i p hp]

theorem command_timeouts_amended_witness :
    (S1Cmd.inquiry, 20000).2 = 20000
    ∧ ((rs_cdb false false 252, 60) : List Nat × Nat).2
        = rs_eff_tmo c4DefIn.tmoArg := by
  constructor
  · exact command_timeouts_amended.1 c2CtrexIn (S1Cmd.inquiry, 20000)
      (by decide)
  · exact command_timeouts_amended.2.1 c4DefIn (rs_cdb false false 252, 60)
      (by decide)

/-! ## Claim C7 (confirmed) -/

/-- C7: the REQUEST SENSE CDB is the 6-byte sequence with opcode 0x03
(0xff under `--error`), bit 0 of byte 1 set exactly under `--desc`,
byte 4 the allocation length (252 when `--maxlen` is absent or 0), and
all other bytes zero; a validated `--maxlen` never exceeds 255, so byte 4
is a byte; and every one of the run's submissions — hence each of the
`--num` repetitions — carries this same CDB. -/
theorem rs_cdb_layout (doError desc : Bool) (m : Nat) (hm : m ≤ 255) :
    rs_cdb doError desc (rs_eff_maxlen m)
      = [if doError then 0xff else 0x3, if desc then 1 else 0, 0, 0,
         rs_eff_maxlen m, 0]
    ∧ (m = 0 → rs_eff_maxlen m = 252)
    ∧ rs_eff_maxlen m ≤ 255
    ∧ (∀ n k, rs_parse_maxlen n = Except.ok k → k ≤ 255)
    ∧ (∀ (i : ReqIn) (p : List Nat × Nat),
        p ∈ submitsOf (sg_requests_main i).1 →
        p.1 = rs_cdb (0 < i.doError) i.desc (rs_eff_maxlen i.maxlen)) := by
  refine ⟨?_, ?_, ?_, ?_, ?_⟩
  · cases doError <;> cases desc <;>
      simp [rs_cdb, rs_eff_maxlen, DEF_REQS_RESP_LEN]
  · intro h; simp [rs_eff_maxlen, h, DEF_REQS_RESP_LEN]
  · unfold rs_eff_maxlen DEF_REQS_RESP_LEN
    split <;> omega
  · intro n k hk
    unfold rs_parse_maxlen at hk
    split at hk
    · exact absurd hk (by simp)
    · rename_i hcond
      simp only [Except.ok.injEq] at hk
      subst hk
      unfold MAX_REQS_RESP_LEN at hcond
      omega
  · intro i p hp
    rw [sg_requests_submits i p hp]

theorem rs_cdb_layout_witness :
    (0 : Nat) ≤ 255
    ∧ rs_cdb true true (rs_eff_maxlen 0)
      = [0xff, 1, 0, 0, rs_eff_maxlen 0, 0]
    ∧ rs_eff_maxlen 0 = 252 := by
  have h := rs_cdb_layout true true 0 (by norm_num)
  exact ⟨by norm_num, h.1, h.2.1 rfl⟩

/-! ## Claim C5 (confirmed) -/

/-- The READ CAPACITY command phase keeps the books balanced: if the
events so far contain one more successful open than closes exactly when
the descriptor is open, then at its end every successful open has been
closed exactly once. -/
lemma rc10Phase_counts (i : RcapIn) (doLong : Bool)
    (evs : List (Ev RcapCmd)) (fdOpen : Bool)
    (hinv : countOpenOk evs = countClose evs + (if fdOpen then 1 else 0)) :
    countClose (rc10Phase i doLong evs fdOpen).1
      = countOpenOk (rc10Phase i doLong evs fdOpen).1 := by
  cases fdOpen with
  | false =>
    simp only [Bool.false_eq_true, if_false, Nat.add_zero] at hinv
    cases doLong with
    | true => simp [rc10Phase, rc16Phase_evs, hinv]
    | false =>
      simp [rc10Phase, rcFini_evs, rc16Phase_evs, apply_ite Prod.fst,
        apply_ite countClose, apply_ite countOpenOk, hinv] <;> omega
  | true =>
    simp only [if_true] at hinv
    norm_num at hinv
    cases doLong with
    | true => simp [rc10Phase, rc16Phase_evs] <;> omega
    | false =>
      by_cases hok : i.res10 = ExitStatus.ok
      · by_cases hC : 0 < i.doHex ∨ (i.doRaw = true ∧ i.inhex = false)
        · simp [rc10Phase, rcFini_evs, hok, hC] <;> omega
        · by_cases haddr : i.addr10Max = false
          · simp [rc10Phase, rcFini_evs, hok, hC, haddr] <;> omega
          · simp [rc10Phase, rc16Phase_evs, hok, hC, haddr] <;> omega
      · by_cases hinvop : i.res10 = ExitStatus.cat SenseCat.invalidOp
        · cases hro : i.reopenOk with
          | false =>
            simp [rc10Phase, rcFini_evs, hok, hinvop, hro] <;> omega
          | true =>
            simp [rc10Phase, rc16Phase_evs, hok, hinvop, hro] <;> omega
        · simp [rc10Phase, rcFini_evs, hok, hinvop] <;> omega

/-- C5: in each of the three utilities, on every path the number of
closes of the device descriptor equals the number of successful opens:
a descriptor that was opened successfully is closed exactly once before
the process exits, whether the commands on it succeeded or failed. -/
theorem fd_closed_exactly_once :
    (∀ i : S1In, countClose (sg_simple1_main i).1
      = countOpenOk (sg_simple1_main i).1)
    ∧ (∀ i : RcapIn, countClose (sg_readcap_main i).1
      = countOpenOk (sg_readcap_main i).1)
    ∧ (∀ i : ReqIn, countClose (sg_requests_main i).1
      = countOpenOk (sg_requests_main i).1) := by
  refine ⟨?_, ?_, ?_⟩
  · intro i
    unfold sg_simple1_main
    split
    · rfl
    split
    · rfl
    split
    · simp
    split
    · simp
    split
    · simp
    · simp
  · intro i
    by_cases h1 : i.parseRes = ExitStatus.ok
    swap
    · simp [sg_readcap_main, h1]
    by_cases h2 : 0 < i.doHelp
    · simp [sg_readcap_main, h1, h2]
    by_cases h3 : i.versionGiven = true
    · simp [sg_readcap_main, h1, h2, h3]
    by_cases h4 : i.doJson = true ∧ i.jsonOk = false
    · simp [sg_readcap_main, h1, h2, h3, h4]
    by_cases h5 : i.inhex = false ∧ i.deviceGiven = false
    · simp [sg_readcap_main, h1, h2, h3, h4, h5]
    by_cases h6 : i.doRaw = true ∧ i.rawOk = false
    · simp [sg_readcap_main, h1, h2, h3, h4, h5, h6]
    by_cases h7 : i.doPmi = false ∧ 0 < i.llba
    · simp [sg_readcap_main, rcFini_evs, h1, h2, h3, h4, h5, h6, h7]
    by_cases h8 : i.allocOk = false
    · simp [sg_readcap_main, h1, h2, h3, h4, h5, h6, h7, h8]
    by_cases h9 : i.inhex = true
    · by_cases h10 : i.inhexRes = ExitStatus.ok
      swap
      · simp [sg_readcap_main, rcFini_evs, h1, h2, h3, h4, h5, h6, h7, h8,
          h9, h10]
      by_cases h11 : i.inLen < 4
      · simp [sg_readcap_main, rcFini_evs, h1, h2, h3, h4, h5, h6, h7, h8,
          h9, h10, h11]
      · have hc := rc10Phase_counts i (i.doLong || i.doZbc) [] false
          (by simp)
        simpa [sg_readcap_main, h1, h2, h3, h4, h5, h6, h7, h8, h9, h10,
          h11] using hc
    · have h9f : i.inhex = false := by simpa using h9
      have hdev : i.deviceGiven = true := by
        cases hd : i.deviceGiven
        · exact absurd ⟨h9f, hd⟩ h5
        · rfl
      by_cases h12 : i.openOk = false
      · simp [sg_readcap_main, rcFini_evs, h1, h2, h3, h4, h9f, hdev, h6,
          h7, h8, h12]
      · have hc := rc10Phase_counts i (i.doLong || i.doZbc) [Ev.openOk] true
          (by simp)
        simpa [sg_readcap_main, h1, h2, h3, h4, h9f, hdev, h6, h7, h8,
          h12] using hc
  · intro i
    unfold sg_requests_main
    split
    · rfl
    split
    · rfl
    split
    · rfl
    split
    · simp [reqFinish]
    split
    · simp [reqFinish]
    split
    · simp [reqFinish]
    split
    · split
      next evs ret hloop =>
        obtain ⟨n, hn⟩ := reqProgLoop_evs i
          (rs_cdb (0 < i.doError) i.desc (rs_eff_maxlen i.maxlen))
          (rs_eff_tmo i.tmoArg) i.numRs 0 [Ev.openOk]
        rw [hloop] at hn
        have hevs : evs = [Ev.openOk]
            ++ List.replicate n (Ev.submit
              (rs_cdb (0 < i.doError) i.desc (rs_eff_maxlen i.maxlen),
               rs_eff_tmo i.tmoArg)) := by simpa using hn
        subst hevs
        simp [reqFinish]
    · split
      next evs ret hloop =>
        obtain ⟨n, hn⟩ := reqLoop_evs i
          (rs_cdb (0 < i.doError) i.desc (rs_eff_maxlen i.maxlen))
          (rs_eff_tmo i.tmoArg) i.numRs 0 0 [Ev.openOk]
        rw [hloop] at hn
        have hevs : evs = [Ev.openOk]
            ++ List.replicate n (Ev.submit
              (rs_cdb (0 < i.doError) i.desc (rs_eff_maxlen i.maxlen),
               rs_eff_tmo i.tmoArg)) := by simpa using hn
        subst hevs
        simp [reqFinish]
      next evs d hloop =>
        obtain ⟨n, hn⟩ := reqLoop_evs i
          (rs_cdb (0 < i.doError) i.desc (rs_eff_maxlen i.maxlen))
          (rs_eff_tmo i.tmoArg) i.numRs 0 0 [Ev.openOk]
        rw [hloop] at hn
        have hevs : evs = [Ev.openOk]
            ++ List.replicate n (Ev.submit
              (rs_cdb (0 < i.doError) i.desc (rs_eff_maxlen i.maxlen),
               rs_eff_tmo i.tmoArg)) := by simpa using hn
        subst hevs
        simp [reqFinish]

/-! ## sg_decode_sense (claim C8) -/

/-- `MAX_SENSE_LEN` of sg_decode_sense (line 38); the `sense` array of
`opts_t` holds `MAX_SENSE_LEN + 4` bytes (line 93). -/
def MAX_SENSE_LEN : Nat := 8192

/-- `isxdigit`: the characters accepted as hexadecimal digits. -/
def isHexDigitC (c : Char) : Bool :=
  (decide ('0' ≤ c ∧ c ≤ '9')) || (decide ('a' ≤ c ∧ c ≤ 'f'))
    || (decide ('A' ≤ c ∧ c ≤ 'F'))

/-- Value of one hexadecimal digit. -/
def hexDigitVal (c : Char) : Nat :=
  if '0' ≤ c ∧ c ≤ '9' then c.toNat - '0'.toNat
  else if 'a' ≤ c ∧ c ≤ 'f' then c.toNat - 'a'.toNat + 10
  else c.toNat - 'A'.toNat + 10

/-- `isspace`: the whitespace `strtol` skips. -/
def isSpaceC (c : Char) : Bool :=
  c = ' ' || c = '\t' || c = '\n' || c = '\x0b' || c = '\x0c' || c = '\r'

/-- Value of a nonempty hex digit string, most significant first. -/
def hexListVal (ds : List Char) : Nat :=
  ds.foldl (fun a c => a * 16 + hexDigitVal c) 0

/-- Modelled from the spec/libc contract of `strtol(avp, &endptr, 16)`,
after the optional sign: an optional `0x`/`0X` prefix is consumed only
when a hex digit follows it, then digits are read greedily. When no digit
is consumed the result is 0 with `endptr` at the original string
(`orig`). C's LONG_MAX/LONG_MIN clamping is omitted: a clamped result
lies outside the 0x00-0xff acceptance window exactly as the unclamped
value does, so the accept/reject behaviour below is unchanged. -/
def strtol16num (orig : List Char) (sign : Int) (s2 : List Char) :
    Int × List Char :=
  let s3 := match s2 with
    | '0' :: x :: t =>
      if (x = 'x' ∨ x = 'X') ∧ isHexDigitC (t.headD 'z') then t else s2
    | _ => s2
  let digits := s3.takeWhile isHexDigitC
  if digits = [] then (0, orig)
  else (sign * (hexListVal digits : Nat), s3.drop digits.length)

/-- Modelled from the spec/libc contract of `strtol(avp, &endptr, 16)`:
skip whitespace, read an optional sign, then the hex number. -/
def strtol16 (s : List Char) : Int × List Char :=
  match s.dropWhile isSpaceC with
  | '-' :: t => strtol16num s (-1) t
  | '+' :: t => strtol16num s 1 t
  | t => strtol16num s 1 t

/-- sg_decode_sense parse_cmd_line, positional-argument loop (lines
360-396) in the default mode (without `--nospace`, whose tokens go to a
separate concatenation buffer and are never stored into `sense` by
`parse_cmd_line`): each token is parsed with `strtol(avp, &endptr, 16)`
and rejected unless it is nonempty, fully consumed and in 0x00-0xff;
then the store is rejected when `sense_len` already exceeds
`MAX_SENSE_LEN`, else the byte is appended. -/
def ds_store_tokens : List (List Char) → List Nat →
    Except ExitStatus (List Nat)
  | [], sense => Except.ok sense
  | avp :: rest, sense =>
    if avp = [] ∨ (strtol16 avp).2 ≠ [] ∨ (strtol16 avp).1 < 0
        ∨ (0xff : Int) < (strtol16 avp).1 then
      Except.error ExitStatus.syntaxErr
    else if MAX_SENSE_LEN < sense.length then
      Except.error ExitStatus.syntaxErr
    else ds_store_tokens rest (sense ++ [(strtol16 avp).1.toNat])

/-- A token the loop accepts: nonempty, parsed to its end by base-16
`strtol`, with a value in 0x00-0xff. -/
def ds_token_ok (avp : List Char) : Prop :=
  avp ≠ [] ∧ (strtol16 avp).2 = [] ∧ 0 ≤ (strtol16 avp).1
    ∧ (strtol16 avp).1 ≤ 0xff

lemma ds_store_invariant :
    ∀ (tokens : List (List Char)) (sense : List Nat),
      sense.length ≤ MAX_SENSE_LEN + 1 → (∀ v ∈ sense, v ≤ 0xff) →
      ∀ out, ds_store_tokens tokens sense = Except.ok out →
        (∀ avp ∈ tokens, ds_token_ok avp)
        ∧ out.length ≤ MAX_SENSE_LEN + 1 ∧ (∀ v ∈ out, v ≤ 0xff) := by
  intro tokens
  induction tokens with
  | nil =>
    intro sense h1 h2 out hout
    rw [ds_store_tokens] at hout
    simp only [Except.ok.injEq] at hout
    subst hout
    exact ⟨by simp, h1, h2⟩
  | cons avp rest ih =>
    intro sense h1 h2 out hout
    rw [ds_store_tokens] at hout
    split at hout
    · exact absurd hout (by simp)
    split at hout
    · exact absurd hout (by simp)
    rename_i hcond hlen
    push_neg at hcond
    have hlen2 : sense.length ≤ MAX_SENSE_LEN := by omega
    obtain ⟨hrest, hl, hv⟩ := ih (sense ++ [(strtol16 avp).1.toNat])
      (by simp; omega)
      (by
        intro v hv
        rcases List.mem_append.mp hv with h | h
        · exact h2 v h
        · have : v = (strtol16 avp).1.toNat := by simpa using h
          subst this
          omega)
      out hout
    refine ⟨?_, hl, hv⟩
    intro a ha
    rcases List.mem_cons.mp ha with rfl | ha
    · exact ⟨hcond.1, hcond.2.1, hcond.2.2.1, hcond.2.2.2⟩
    · exact hrest a ha

/-- C8: in sg_decode_sense's positional parsing (default mode), every
token the loop accepts parses as a base-16 value in 0x00-0xff — any other
token yields a syntax-error return — and the resulting sense length never
exceeds `MAX_SENSE_LEN` + 1 = 8193, strictly below the `sense` array size
`MAX_SENSE_LEN` + 4 = 8196, so every store into the array is in
bounds. -/
theorem sense_tokens_in_bounds (tokens : List (List Char))
    (out : List Nat) (hok : ds_store_tokens tokens [] = Except.ok out) :
    (∀ avp ∈ tokens, ds_token_ok avp)
    ∧ out.length ≤ MAX_SENSE_LEN + 1
    ∧ (∀ v ∈ out, v ≤ 0xff)
    ∧ MAX_SENSE_LEN + 1 = 8193
    ∧ out.length < MAX_SENSE_LEN + 4 := by
  obtain ⟨ha, hl, hv⟩ := ds_store_invariant tokens [] (by simp) (by simp)
    out hok
  refine ⟨ha, hl, hv, rfl, by omega⟩

theorem sense_tokens_in_bounds_witness :
    ds_store_tokens [['7', '0'], ['0', 'x', 'f', 'f']] []
      = Except.ok [0x70, 0xff]
    ∧ ([0x70, 0xff] : List Nat).length ≤ MAX_SENSE_LEN + 1 := by
  have hok : ds_store_tokens [['7', '0'], ['0', 'x', 'f', 'f']] []
      = Except.ok [0x70, 0xff] := by rfl
  have h := sense_tokens_in_bounds [['7', '0'], ['0', 'x', 'f', 'f']]
    [0x70, 0xff] hok
  exact ⟨hok, h.2.1⟩

/-! ## Claim C9 (confirmed) -/

/-- The fields of sg_readcap's option struct that the two `--lba`/`-lba=`
handlers touch. -/
structure RcOpts where
  do_long : Bool
  llba : Nat
  do_lba : Nat
  deriving DecidableEq

/-- sg_readcap.c lines 322-334: the `--lba=` handler of
new_parse_cmd_line. `nn` is the `sg_get_llnum` result (-1 = bad
argument); the int64 is stored into the uint64 `llba` (reduction mod
2^64), and a stored value above 0xfffffffe forces the 16-byte READ
CAPACITY variant. -/
def rc_new_lba_opt (op : RcOpts) (nn : Int) : Except ExitStatus RcOpts :=
  if nn = -1 then Except.error ExitStatus.syntaxErr
  else if 0xfffffffe < (nn % (2 ^ 64 : Int)).toNat then
    Except.ok { op with do_long := true,
                        llba := (nn % (2 ^ 64 : Int)).toNat,
                        do_lba := op.do_lba + 1 }
  else
    Except.ok { op with llba := (nn % (2 ^ 64 : Int)).toNat,
                        do_lba := op.do_lba + 1 }

/-- sg_readcap.c lines 461-472: the `lba=` handler of old_parse_cmd_line.
`scanned` is the `sscanf("%" SCNx64)` result (`none` = no conversion);
values above 0xfffffffe force the 16-byte variant before `llba` is
stored. -/
def rc_old_lba_opt (op : RcOpts) (scanned : Option Nat) :
    Except ExitStatus RcOpts :=
  match scanned with
  | none => Except.error ExitStatus.syntaxErr
  | some uu =>
    if 0xfffffffe < uu then
      Except.ok { op with do_long := true, llba := uu,
                          do_lba := op.do_lba + 1 }
    else
      Except.ok { op with llba := uu, do_lba := op.do_lba + 1 }

/-- C9: for every LBA argument value strictly above 0xfffffffe, both the
new-style `--lba=` handler and the old-style `-lba=` handler set
`do_long` (forcing READ CAPACITY (16)) in addition to storing the value
in `llba` and counting the option. -/
theorem lba_forces_rcap16 (op : RcOpts) (v : Nat)
    (hv : 0xfffffffe < v) (hw : v < 2 ^ 64) :
    rc_new_lba_opt op (v : Int)
      = Except.ok { do_long := true, llba := v, do_lba := op.do_lba + 1 }
    ∧ rc_old_lba_opt op (some v)
      = Except.ok { do_long := true, llba := v, do_lba := op.do_lba + 1 } := by
  have hne : (v : Int) ≠ -1 := by omega
  have hmod : ((v : Int) % (2 ^ 64 : Int)).toNat = v := by
    rw [Int.emod_eq_of_lt (by positivity) (by exact_mod_cast hw)]
    simp
  constructor
  · rw [rc_new_lba_opt, if_neg hne, hmod, if_pos hv]
  · simp only [rc_old_lba_opt, if_pos hv]

theorem lba_forces_rcap16_witness :
    (0xfffffffe : Nat) < 0xffffffff
    ∧ rc_new_lba_opt ⟨false, 0, 0⟩ (0xffffffff : Int)
      = Except.ok ⟨true, 0xffffffff, 1⟩
    ∧ rc_old_lba_opt ⟨false, 0, 0⟩ (some 0xffffffff)
      = Except.ok ⟨true, 0xffffffff, 1⟩ := by
  have h := lba_forces_rcap16 ⟨false, 0, 0⟩ 0xffffffff (by norm_num)
    (by norm_num)
  exact ⟨by norm_num, h.1, h.2⟩

/-! ## Claim C10 (confirmed) -/

/-- C10: when sg_readcap is invoked with a nonzero LBA but without
`--pmi` (and none of the argument-level early exits — `--help`,
`--version`, a parse error, a bad `--json` argument, a missing DEVICE, a
failed raw-mode switch — applies), it exits with `SG_LIB_CONTRADICT` and
its trace is empty: the device is never opened and no SCSI command is
ever submitted. -/
theorem contradict_before_open (i : RcapIn)
    (hp : i.parseRes = ExitStatus.ok) (hh : i.doHelp = 0)
    (hver : i.versionGiven = false)
    (hjson : i.doJson = true → i.jsonOk = true)
    (hdev : i.inhex = true ∨ i.deviceGiven = true)
    (hraw : i.doRaw = true → i.rawOk = true)
    (hpmi : i.doPmi = false) (hlba : 0 < i.llba) :
    (sg_readcap_main i).1 = []
    ∧ (sg_readcap_main i).2 = ExitStatus.contradict := by
  have hc4 : ¬ (i.doJson = true ∧ i.jsonOk = false) := by
    rintro ⟨a, b⟩
    rw [hjson a] at b
    exact absurd b (by simp)
  have hc5 : ¬ (i.inhex = false ∧ i.deviceGiven = false) := by
    rintro ⟨a, b⟩
    rcases hdev with h | h
    · rw [h] at a; exact absurd a (by simp)
    · rw [h] at b; exact absurd b (by simp)
  have hc6 : ¬ (i.doRaw = true ∧ i.rawOk = false) := by
    rintro ⟨a, b⟩
    rw [hraw a] at b
    exact absurd b (by simp)
  constructor <;>
    simp [sg_readcap_main, rcFini, rcFiniRet, hp, hh, hver, hc4, hc5, hc6,
      hpmi, hlba]

/-- A concrete invocation hitting the contradiction check. -/
def c10WitIn : RcapIn := { c3CtrexIn with llba := 5 }

theorem contradict_before_open_witness :
    (sg_readcap_main c10WitIn).1 = []
    ∧ (sg_readcap_main c10WitIn).2 = ExitStatus.contradict :=
  contradict_before_open c10WitIn rfl rfl rfl
    (fun h => Bool.noConfusion h) (Or.inr rfl)
    (fun h => Bool.noConfusion h) rfl (by norm_num [c10WitIn, c3CtrexIn])

end SgUtils
